import Mathlib

/-
Verification of the commit-fuzzer orchestrator
(scripts/commit_fuzzer/simple_commit_fuzzer.py,
scripts/commit_fuzzer/resource_monitor.py and the reference adapter
scripts/fuzzers/typefuzz/fuzzer.py) as a shallow embedding in Lean 4.

Pure decision logic (status classification, exit-code parsing, verdict
handling, time-budget arithmetic) is embedded as Lean functions; the
stateful worker loop body is embedded as a step function on an explicit
worker state (statistics plus a FIFO queue of test names); the
side-effecting critical-resource handler is embedded as the trace of
effects it performs, in order.  Wall-clock readings and memory readings
are rational parameters.
-/

namespace CommitFuzzer

/-- The fuzzer adapter's classification of one run: the strings
'continue' / 'requeue' / 'remove' used throughout the orchestrator. -/
inductive Verdict where
  | cont
  | requeue
  | remove
deriving DecidableEq, Repr

/-- The tri-state resource status strings 'normal' / 'warning' / 'critical'. -/
inductive Status where
  | normal
  | warning
  | critical
deriving DecidableEq, Repr

/-- The shared campaign counters (the `stats` managed dict, in the order
they are initialised in `SimpleCommitFuzzer.__init__`). -/
structure Stats where
  tests_processed : Nat
  bugs_found : Nat
  tests_removed_unsupported : Nat
  tests_removed_timeout : Nat
  tests_requeued : Nat
deriving DecidableEq, Repr

/-- The tuple `_run_fuzzer` hands to `_handle_fuzzer_result`
(`bug_found, bug_files, exit_action`; the runtime component is a wall-clock
measurement used only for logging and is omitted). -/
structure FuzzOutcome where
  bug_found : Bool
  bug_files : List String
  exit_action : Verdict
deriving DecidableEq, Repr

/-- `RESOURCE_CONFIG['cpu_warning']`. -/
def cpu_warning : ℚ := 85

/-- `RESOURCE_CONFIG['cpu_critical']`. -/
def cpu_critical : ℚ := 95

/-- `RESOURCE_CONFIG['memory_warning_available_gb']`. -/
def memory_warning_available_gb : ℚ := 2

/-- `RESOURCE_CONFIG['memory_critical_available_gb']`. -/
def memory_critical_available_gb : ℚ := 1/2

/-- `RESOURCE_CONFIG['pause_duration']`. -/
def pause_duration : ℚ := 10

/-- The status computation of `_monitor_resources`
(simple_commit_fuzzer.py lines 142-149) and `ResourceMonitor._monitor_loop`
(resource_monitor.py lines 75-81): start from 'normal', escalate to
'critical' when average CPU is at least `cpu_critical` or available memory
is below `memory_critical_available_gb`, else to 'warning' when average CPU
is at least `cpu_warning` or available memory is below
`memory_warning_available_gb`. -/
def classifyStatus (avg_cpu memory_available_gb : ℚ) : Status :=
  if cpu_critical ≤ avg_cpu ∨ memory_available_gb < memory_critical_available_gb then
    Status.critical
  else if cpu_warning ≤ avg_cpu ∨ memory_available_gb < memory_warning_available_gb then
    Status.warning
  else
    Status.normal

/-- `_get_time_remaining`: `float('inf')` when no budget is configured,
else `max(0.0, time_remaining - (time.time() - start_time))`, with the
elapsed time `time.time() - start_time` passed as a parameter. -/
def getTimeRemaining (time_remaining : Option ℚ) (elapsed : ℚ) : WithTop ℚ :=
  match time_remaining with
  | none => ⊤
  | some budget => ((max 0 (budget - elapsed) : ℚ) : WithTop ℚ)

/-- `_is_time_expired`: `time_remaining is not None and _get_time_remaining() <= 0`. -/
def isTimeExpired (time_remaining : Option ℚ) (elapsed : ℚ) : Bool :=
  time_remaining.isSome &&
    decide (getTimeRemaining time_remaining elapsed ≤ (0 : WithTop ℚ))

/-- `_compute_time_remaining`: subtract the build time
(`start_time - job_start_time`) and the stop buffer from the fixed
21600-second GitHub ceiling, clamping the result up to the 600-second
minimum; Python's final `int()` truncates, which on the (positive)
clamped value is the floor. -/
def computeTimeRemaining (start_time job_start_time : ℚ)
    (stop_buffer_minutes : ℤ) : ℤ :=
  let build_time := start_time - job_start_time
  let stop_buffer_seconds : ℚ := stop_buffer_minutes * 60
  let available_time := 21600 - build_time
  let remaining := available_time - stop_buffer_seconds
  if remaining < 600 then 600 else ⌊remaining⌋

/-- `_handle_fuzzer_result`: when a bug was found and artifact files are
present, count every artifact into `bugs_found` and return the adapter's
own verdict; otherwise a 'remove' verdict increments
`tests_removed_unsupported`, a 'requeue' verdict is passed through, and
anything else is 'continue'. -/
def handleFuzzerResult (stats : Stats) (bug_found : Bool)
    (bug_files : List String) (exit_action : Verdict) : Stats × Verdict :=
  if bug_found && !bug_files.isEmpty then
    ({ stats with bugs_found := stats.bugs_found + bug_files.length }, exit_action)
  else if exit_action = Verdict.remove then
    ({ stats with tests_removed_unsupported := stats.tests_removed_unsupported + 1 },
     Verdict.remove)
  else if exit_action = Verdict.requeue then
    (stats, Verdict.requeue)
  else
    (stats, Verdict.cont)

/-- The state one worker iteration acts on: the shared campaign counters
and the shared test queue (front = next `get`, `put` appends). -/
structure WorkerState where
  stats : Stats
  queue : List String
deriving DecidableEq, Repr

/-- Whether the `while` body ends by `break` (worker prints Stopped) or
by falling through / `continue` (another iteration follows). -/
inductive StepOutcome where
  | stopped
  | looping
deriving DecidableEq, Repr

/-- One iteration of the `_worker_process` loop body, with the values the
iteration reads from shared state (shutdown event, paused flag, time
expiry, resource status) taken as a single snapshot, and the whole
`_run_fuzzer` invocation abstracted as a function from the test name to
its outcome (`_run_fuzzer` never raises).  Sleeps are not modelled; the
'warning' branch (sleep 2s then proceed) therefore coincides with the
normal path.  The `current_tests` bookkeeping map is omitted. -/
def workerStep (shutdown paused time_expired : Bool) (resource_status : Status)
    (run : String → FuzzOutcome) (s : WorkerState) : WorkerState × StepOutcome :=
  if shutdown then (s, StepOutcome.stopped)
  else if paused then (s, StepOutcome.looping)
  else
    match s.queue with
    | [] =>
      if shutdown || time_expired then (s, StepOutcome.stopped)
      else (s, StepOutcome.looping)
    | test_name :: rest =>
      if time_expired then
        ({ s with queue := rest ++ [test_name] }, StepOutcome.stopped)
      else if resource_status = Status.critical then
        ({ s with queue := rest ++ [test_name] }, StepOutcome.looping)
      else
        let o := run test_name
        let hr := handleFuzzerResult s.stats o.bug_found o.bug_files o.exit_action
        let stats2 := hr.1
        let action := hr.2
        let stats3 :=
          if action = Verdict.requeue then
            { stats2 with tests_requeued := stats2.tests_requeued + 1 }
          else stats2
        let queue2 := if action = Verdict.requeue then rest ++ [test_name] else rest
        ({ stats := { stats3 with tests_processed := stats3.tests_processed + 1 },
           queue := queue2 },
         StepOutcome.looping)

/-- The condition under which one worker iteration reaches the
`_run_fuzzer` call (and that call always completes): not shutting down,
not paused, a test was obtained, the budget is not expired, and the
pre-run resource status is not 'critical'. -/
def runOccurs (shutdown paused time_expired : Bool) (resource_status : Status)
    (queue : List String) : Bool :=
  !shutdown && !paused && !queue.isEmpty && !time_expired &&
    !(resource_status == Status.critical)

/-- A bug artifact's filename split as `Path` splits it: `stem` (name
without the final extension) and `suffix` (the final extension, dot
included), so the full name is `stem ++ suffix`. -/
structure BugFileName where
  stem : String
  suffix : String
deriving DecidableEq, Repr

/-- `bug_file.name`, i.e. `stem + suffix`. -/
def fullName (f : BugFileName) : String := f.stem ++ f.suffix

/-- The collision fallback name `f"{bug_file.stem}_{timestamp}{bug_file.suffix}"`. -/
def timestampedName (f : BugFileName) (timestamp : Nat) : String :=
  f.stem ++ "_" ++ toString timestamp ++ f.suffix

/-- The destination chosen by the merge code in `_handle_fuzzer_result`
(lines 396-399) and in `run` (lines 550-553): the artifact's own name
unless a file of that name already exists in the shared bugs directory,
in which case the timestamped fallback name — which is not itself checked
for existence. -/
def mergeDest (shared : List String) (f : BugFileName) (timestamp : Nat) : String :=
  if fullName f ∈ shared then timestampedName f timestamp else fullName f

/-- One `shutil.move` of an artifact into the shared bugs directory,
modelled on the directory's set of file names: the first component is the
directory contents afterwards, the second is whether the move overwrote
an existing file (POSIX rename semantics of `shutil.move` onto an
existing path). -/
def mergeBugFile (shared : List String) (f : BugFileName) (timestamp : Nat) :
    List String × Bool :=
  let dest := mergeDest shared f timestamp
  (if dest ∈ shared then shared else dest :: shared, decide (dest ∈ shared))

/-- The observable effects of the critical-resource handler, in order. -/
inductive MonitorEvent where
  | setShutdown
  | setPaused (value : Bool)
  | gcCollect
  | sleepSeconds (duration : ℚ)
  | killWorker
deriving DecidableEq, Repr

/-- `_handle_critical_resources` (simple_commit_fuzzer.py lines 242-260)
and `ResourceMonitor._handle_critical` (resource_monitor.py lines
105-120), as the trace of effects performed: below the critical memory
floor, set the shutdown event (via `_log_bugs_summary_and_stop`, which
only logs and sets the event) and return; otherwise set paused, run a gc
collection, sleep `pause_duration`, clear paused. -/
def handleCriticalResources (memory_available_gb : ℚ) : List MonitorEvent :=
  if memory_available_gb < memory_critical_available_gb then
    [MonitorEvent.setShutdown]
  else
    [MonitorEvent.setPaused true, MonitorEvent.gcCollect,
     MonitorEvent.sleepSeconds pause_duration, MonitorEvent.setPaused false]

/-- How the `subprocess.run` call inside `_run_fuzzer` ends: normal
completion with an exit code and the artifacts collected from the worker's
bugs directory, `subprocess.TimeoutExpired`, or any other exception. -/
inductive SubprocResult where
  | completed (exit_code : ℤ) (collected : List String)
  | timeoutExpired
  | raised
deriving DecidableEq, Repr

/-- `_run_fuzzer` (lines 320-380): if the test file is missing, return
early with a no-bug 'continue' outcome (before the scratch/log
directories are touched, hence `dirs_present` unchanged); otherwise
create the directories and run the subprocess inside
try/except/finally — on completion parse the exit code via the adapter's
`parse_result` and return the collected artifacts, on
`TimeoutExpired` or any other exception return a no-bug 'continue'
outcome, and in all three cases the `finally` block removes the
scratch/log directories (second component false).  Exceptions never
escape: every path returns a value. -/
def runFuzzer (parseResult : ℤ → Bool × Verdict) (test_exists : Bool)
    (sub : SubprocResult) (dirs_present : Bool) :
    (Bool × List String × Verdict) × Bool :=
  if !test_exists then ((false, [], Verdict.cont), dirs_present)
  else
    match sub with
    | SubprocResult.completed exit_code collected =>
      (((parseResult exit_code).1, collected, (parseResult exit_code).2), false)
    | SubprocResult.timeoutExpired => ((false, [], Verdict.cont), false)
    | SubprocResult.raised => ((false, [], Verdict.cont), false)

namespace Typefuzz

/-- `Fuzzer.DEFAULT_EXIT_CODES` from scripts/fuzzers/typefuzz/fuzzer.py.
The Python dict is keyed by `str(exit_code)`; since `str` is injective on
integers the table is embedded keyed by the integer itself. -/
def DEFAULT_EXIT_CODES : List (ℤ × (Bool × CommitFuzzer.Verdict)) :=
  [(10, (true, CommitFuzzer.Verdict.requeue)),
   (3, (false, CommitFuzzer.Verdict.remove)),
   (0, (false, CommitFuzzer.Verdict.requeue))]

/-- `Fuzzer.DEFAULT_EXIT_ACTION`. -/
def DEFAULT_EXIT_ACTION : Bool × CommitFuzzer.Verdict :=
  (false, CommitFuzzer.Verdict.cont)

/-- `Fuzzer.parse_result`: look the exit code up in `DEFAULT_EXIT_CODES`,
falling back to `DEFAULT_EXIT_ACTION`. -/
def parse_result (exit_code : ℤ) : Bool × CommitFuzzer.Verdict :=
  (DEFAULT_EXIT_CODES.lookup exit_code).getD DEFAULT_EXIT_ACTION

end Typefuzz

end CommitFuzzer

open CommitFuzzer

/-- C2: for every CPU/memory sample, the monitor classifies 'critical'
exactly when average CPU ≥ 95 or available memory < 0.5 GB; otherwise
'warning' exactly when average CPU ≥ 85 or available memory < 2 GB;
otherwise 'normal'. -/
theorem status_classification (avg_cpu mem : ℚ) :
    (classifyStatus avg_cpu mem = Status.critical ↔
      (95 ≤ avg_cpu ∨ mem < 1/2))
    ∧ (classifyStatus avg_cpu mem = Status.warning ↔
      (¬ (95 ≤ avg_cpu ∨ mem < 1/2) ∧ (85 ≤ avg_cpu ∨ mem < 2)))
    ∧ (classifyStatus avg_cpu mem = Status.normal ↔
      (¬ (95 ≤ avg_cpu ∨ mem < 1/2) ∧ ¬ (85 ≤ avg_cpu ∨ mem < 2))) := by
  unfold classifyStatus cpu_warning cpu_critical
    memory_warning_available_gb memory_critical_available_gb
  split_ifs with h1 h2 <;> simp_all

/-- C9: the reference adapter's `parse_result` is a total function of the
exit code: 10 maps to (bug found, requeue), 3 to (no bug, remove), 0 to
(no bug, requeue), and every other exit code to (no bug, continue). -/
theorem parse_result_classification (code : ℤ) :
    Typefuzz.parse_result code =
      if code = 10 then (true, Verdict.requeue)
      else if code = 3 then (false, Verdict.remove)
      else if code = 0 then (false, Verdict.requeue)
      else (false, Verdict.cont) := by
  unfold Typefuzz.parse_result Typefuzz.DEFAULT_EXIT_CODES
    Typefuzz.DEFAULT_EXIT_ACTION
  simp only [List.lookup]
  split_ifs with h1 h2 h3
  · subst h1; rfl
  · subst h2; rfl
  · subst h3; rfl
  · have e1 : (code == 10) = false := beq_eq_false_iff_ne.mpr h1
    have e2 : (code == 3) = false := beq_eq_false_iff_ne.mpr h2
    have e3 : (code == 0) = false := beq_eq_false_iff_ne.mpr h3
    rw [e1, e2, e3]; rfl

/-- Helper: `_handle_fuzzer_result` never touches `tests_processed`. -/
theorem handleFuzzerResult_tests_processed (stats : Stats) (bf : Bool)
    (files : List String) (a : Verdict) :
    (handleFuzzerResult stats bf files a).1.tests_processed = stats.tests_processed := by
  unfold handleFuzzerResult
  split_ifs <;> rfl

/-- C3: time remaining is never negative; with a configured budget,
`is_expired` is exactly "elapsed ≥ budget" (false strictly below, true at
or beyond); with no budget, time remaining is infinite and `is_expired`
is always false; and the remaining time computed from a job start time is
the raw value floored, clamped up to exactly 600 seconds. -/
theorem time_budget_props (b : Option ℚ) (c e s j : ℚ) (m : ℤ) :
    0 ≤ getTimeRemaining b e
    ∧ isTimeExpired (some c) e = decide (c ≤ e)
    ∧ getTimeRemaining none e = ⊤
    ∧ isTimeExpired none e = false
    ∧ computeTimeRemaining s j m = max 600 ⌊21600 - (s - j) - (m : ℚ) * 60⌋ := by
  refine ⟨?_, ?_, rfl, rfl, ?_⟩
  · cases b with
    | none => exact le_top
    | some budget =>
      simp only [getTimeRemaining]
      exact_mod_cast WithTop.coe_le_coe.mpr (le_max_left 0 (budget - e))
  · simp only [isTimeExpired, getTimeRemaining, Option.isSome_some, Bool.true_and]
    rw [decide_eq_decide]
    rw [show ((0 : WithTop ℚ) = ((0 : ℚ) : WithTop ℚ)) from rfl, WithTop.coe_le_coe]
    constructor
    · intro h
      have h2 : c - e ≤ 0 := le_trans (le_max_right 0 (c - e)) h
      linarith
    · intro h
      have h2 : max 0 (c - e) = 0 := max_eq_left (by linarith)
      rw [h2]
  · dsimp only [computeTimeRemaining]
    split_ifs with h
    · have hf : ⌊21600 - (s - j) - (m : ℚ) * 60⌋ ≤ 600 := by
        have h2 := Int.floor_le_floor (le_of_lt h)
        simpa using h2
      exact (max_eq_left hf).symm
    · push_neg at h
      have hf : (600 : ℤ) ≤ ⌊21600 - (s - j) - (m : ℚ) * 60⌋ := by
        rw [Int.le_floor]
        exact_mod_cast h
      exact (max_eq_right hf).symm

/-- C4: one worker iteration increments `tests_processed` by exactly one
when (and only when) it reaches a completed fuzzer run, and leaves it
unchanged on every other path (shutdown, paused, empty poll, budget
expiry, critical pre-run status). -/
theorem tests_processed_increment (shutdown paused time_expired : Bool)
    (status : Status) (run : String → FuzzOutcome) (s : WorkerState) :
    (workerStep shutdown paused time_expired status run s).1.stats.tests_processed
      = s.stats.tests_processed
        + (if runOccurs shutdown paused time_expired status s.queue then 1 else 0) := by
  rcases s with ⟨stats, queue⟩
  cases shutdown <;> cases paused <;> cases time_expired <;>
    rcases queue with _ | ⟨t, rest⟩ <;>
    cases status <;>
    simp [workerStep, runOccurs] <;>
    split_ifs <;>
    simp [handleFuzzerResult_tests_processed]

/-- C5: a worker that obtains a test while the time budget is already
exhausted pushes that test back onto the end of the queue and stops,
leaving every campaign counter unchanged (the test is not run). -/
theorem expired_test_pushed_back (status : Status) (run : String → FuzzOutcome)
    (stats : Stats) (t : String) (rest : List String) :
    workerStep false false true status run ⟨stats, t :: rest⟩
      = (⟨stats, rest ++ [t]⟩, StepOutcome.stopped) := by
  rfl

/-- C10: a worker whose pre-run resource check reads 'critical' pushes the
test back onto the queue and loops without running the fuzzer, leaving
every campaign counter unchanged. -/
theorem critical_precheck_frame (run : String → FuzzOutcome) (stats : Stats)
    (t : String) (rest : List String) :
    workerStep false false false Status.critical run ⟨stats, t :: rest⟩
      = (⟨stats, rest ++ [t]⟩, StepOutcome.looping) := by
  rfl

/-- C1 counterexample: a completed run with verdict 'remove' that also
found a bug with an artifact present does NOT increment
`tests_removed_unsupported` (the bug-handling branch returns the verdict
early, skipping the counter), contradicting the claim that the counter is
incremented by exactly one regardless of bugs found. -/
theorem remove_with_bugs_counter_cex :
    ¬ ((handleFuzzerResult ⟨0, 0, 0, 0, 0⟩ true ["bug1.smt2"] Verdict.remove).1.tests_removed_unsupported
        = (⟨0, 0, 0, 0, 0⟩ : Stats).tests_removed_unsupported + 1) := by
  decide

/-- C1 amended: a completed run with verdict 'remove' always yields
action 'remove' and the test is dropped (not re-enqueued; the worker
leaves the queue without it), but `tests_removed_unsupported` is
incremented by exactly one only when the run did not find bugs with
artifacts present — when it did, the counter is left unchanged. -/
theorem remove_verdict_handling (stats : Stats) (bf : Bool) (files : List String)
    (t : String) (rest : List String) :
    (handleFuzzerResult stats bf files Verdict.remove).2 = Verdict.remove
    ∧ (handleFuzzerResult stats bf files Verdict.remove).1.tests_removed_unsupported
        = stats.tests_removed_unsupported + (if bf && !files.isEmpty then 0 else 1)
    ∧ (workerStep false false false Status.normal
        (fun _ => ⟨bf, files, Verdict.remove⟩) ⟨stats, t :: rest⟩).1.queue = rest := by
  have h2 : (handleFuzzerResult stats bf files Verdict.remove).2 = Verdict.remove := by
    unfold handleFuzzerResult
    split_ifs <;> simp_all
  refine ⟨h2, ?_, ?_⟩
  · unfold handleFuzzerResult
    split_ifs <;> simp_all
  · simp [workerStep, h2]

/-- C6 counterexample: merging an artifact named `a.smt2` into a shared
bugs directory that already holds `a.smt2` and `a_100.smt2`, at Unix
timestamp 100, picks the fallback name `a_100.smt2` without checking it
for existence and overwrites that existing file — refuting the claim that
no existing file in the shared bugs directory is ever overwritten. -/
theorem merge_overwrite_cex :
    (mergeBugFile ["a.smt2", "a_100.smt2"] ⟨"a", ".smt2"⟩ 100).2 = true := by
  rfl

/-- C6 amended: when an artifact's name collides with an existing file in
the shared bugs directory, it is renamed by inserting the Unix timestamp
before its extension; provided that timestamped name is not itself
already present, both files survive under distinct names, every file
previously in the directory is still there, and nothing is overwritten —
if the timestamped name is also taken, the move overwrites that file. -/
theorem merge_collision_resolution (shared : List String) (f : BugFileName) (ts : Nat)
    (hcol : fullName f ∈ shared) (hfree : timestampedName f ts ∉ shared) :
    (mergeBugFile shared f ts).2 = false
    ∧ timestampedName f ts ∈ (mergeBugFile shared f ts).1
    ∧ fullName f ∈ (mergeBugFile shared f ts).1
    ∧ fullName f ≠ timestampedName f ts
    ∧ ∀ x ∈ shared, x ∈ (mergeBugFile shared f ts).1 := by
  have hd : mergeDest shared f ts = timestampedName f ts := by
    simp [mergeDest, hcol]
  have hlist : (mergeBugFile shared f ts).1 = timestampedName f ts :: shared := by
    simp [mergeBugFile, hd, hfree]
  have hflag : (mergeBugFile shared f ts).2 = false := by
    simp [mergeBugFile, hd, hfree]
  refine ⟨hflag, ?_, ?_, ?_, ?_⟩
  · rw [hlist]
    exact List.mem_cons_self _ _
  · rw [hlist]
    exact List.mem_cons_of_mem _ hcol
  · intro h
    exact hfree (h ▸ hcol)
  · intro x hx
    rw [hlist]
    exact List.mem_cons_of_mem _ hx

/-- C6 witness: a concrete collision (`a.smt2` already present, fallback
`a_5.smt2` free) resolved without overwriting. -/
theorem merge_collision_resolution_witness :
    fullName ⟨"a", ".smt2"⟩ ∈ ["a.smt2"]
    ∧ timestampedName ⟨"a", ".smt2"⟩ 5 ∉ ["a.smt2"]
    ∧ (mergeBugFile ["a.smt2"] ⟨"a", ".smt2"⟩ 5).2 = false :=
  ⟨by decide, by decide,
   (merge_collision_resolution ["a.smt2"] ⟨"a", ".smt2"⟩ 5 (by decide) (by decide)).1⟩

/-- C7: on a critical reading, the handler sets the campaign shutdown
flag exactly when available memory is below the 0.5 GB critical floor;
otherwise (critical due to CPU) its whole effect trace is: set paused,
gc-collect, sleep the fixed 10-second pause, clear paused — and on no
path does it kill a worker process. -/
theorem critical_handling (m : ℚ) :
    ((MonitorEvent.setShutdown ∈ handleCriticalResources m) ↔ m < 1/2)
    ∧ (¬ (m < 1/2) →
        handleCriticalResources m =
          [MonitorEvent.setPaused true, MonitorEvent.gcCollect,
           MonitorEvent.sleepSeconds 10, MonitorEvent.setPaused false])
    ∧ MonitorEvent.killWorker ∉ handleCriticalResources m := by
  unfold handleCriticalResources memory_critical_available_gb pause_duration
  split_ifs with h <;> simp_all

/-- C7 witness: at 1 GB available (above the floor), the handler's trace
is exactly the pause / gc / 10-second sleep / unpause sequence. -/
theorem critical_handling_witness :
    ¬ ((1 : ℚ) < 1/2)
    ∧ handleCriticalResources 1 =
        [MonitorEvent.setPaused true, MonitorEvent.gcCollect,
         MonitorEvent.sleepSeconds 10, MonitorEvent.setPaused false] :=
  ⟨by norm_num, (critical_handling 1).2.1 (by norm_num)⟩

/-- C8: a run whose subprocess exceeds its deadline returns the outcome
(no bug, no artifacts, verdict 'continue') instead of raising — as does a
run whose subprocess raises any other exception — and on every exit path
of an attempted run the temporary scratch/log directories are removed. -/
theorem run_fuzzer_timeout_cleanup (parse : ℤ → Bool × Verdict)
    (sub : SubprocResult) (d : Bool) :
    (runFuzzer parse true SubprocResult.timeoutExpired d).1
        = (false, [], Verdict.cont)
    ∧ (runFuzzer parse true SubprocResult.raised d).1
        = (false, [], Verdict.cont)
    ∧ (runFuzzer parse true sub d).2 = false := by
  refine ⟨rfl, rfl, ?_⟩
  cases sub <;> rfl
